import Mathlib

/-!
Verification of the Multi-Prompt-Agent core: schema model and validator
(`src/database/models.py`), capability binder (`src/agents/agent_factory.py`),
persistence lookup (`src/database/connection.py`) and session entrypoint
(`src/agents/multi_agent.py`), shallowly embedded in Lean.

Python strings are modelled as Lean `String`; `len` counts characters,
`str.lower` maps `Char.toLower` over the characters (the inputs it is applied
to are ASCII, where the two agree), `str.strip` drops ASCII whitespace at both
ends, and the `in` operator on strings is contiguous-sublist containment.
Pydantic validation is modelled field by field: for each field the declared
bound checks run first and the field validators after, the first failure of a
field stops that field's chain, and the failures of all fields are collected
in field declaration order; construction succeeds exactly when no field
reports an error.
-/

namespace MultiPromptAgent

/-! ## Python string primitives -/

/-- Character count of a string, Python `len`. -/
def pyLen (s : String) : Nat := s.toList.length

/-- Python `str.lower` on ASCII input: lower-case every character. -/
def pyLower (s : String) : String := String.mk (s.toList.map Char.toLower)

/-- Python `needle in hay` on strings: contiguous substring test. -/
def pySubstr (needle hay : String) : Bool := decide (needle.toList <:+: hay.toList)

/-- ASCII whitespace as stripped by Python `str.strip`. -/
def isPyWhitespace (c : Char) : Bool :=
  c = ' ' || c = '\t' || c = '\n' || c = '\r' || c = '\x0b' || c = '\x0c'

/-- Python `str.strip`: drop whitespace from both ends. -/
def pyStrip (s : String) : String :=
  String.mk (((s.toList.dropWhile isPyWhitespace).reverse.dropWhile isPyWhitespace).reverse)

/-- Match for the character class `[a-zA-Z0-9_]`. -/
def isIdentTailChar (c : Char) : Bool := c.isAlpha || c.isDigit || c = '_'

/-- Full match for the regex of `AgentEdge.validate_name`: `^[a-zA-Z_][a-zA-Z0-9_]*$`. -/
def toolNameOk (s : String) : Bool :=
  match s.toList with
  | [] => false
  | c :: cs => (c.isAlpha || c = '_') && cs.all isIdentTailChar

/-- Full match for the regex of `AgentConfig.validate_agent_name`: `^[a-zA-Z][a-zA-Z0-9_]*$`. -/
def agentNameOk (s : String) : Bool :=
  match s.toList with
  | [] => false
  | c :: cs => c.isAlpha && cs.all isIdentTailChar

/-- Match for the character class `[a-zA-Z0-9_-]`. -/
def customerIdChar (c : Char) : Bool := c.isAlpha || c.isDigit || c = '_' || c = '-'

/-- Full match for the regex of `CustomerSchema.validate_customer_id`: `^[a-zA-Z0-9_-]+$`. -/
def customerIdOk (s : String) : Bool :=
  !s.toList.isEmpty && s.toList.all customerIdChar

/-! ## Schema model (`src/database/models.py`) -/

/-- Edge configuration for agent handoffs (`AgentEdge`). -/
structure AgentEdge where
  name : String
  description : String
  action : String
  target_agent : String
deriving Repr, DecidableEq

/-- The prohibited keyword list of `AgentConfig.validate_instructions`. -/
def prohibited_keywords : List String := ["execute", "eval", "__import__", "subprocess"]

/-- Does `v` contain a prohibited keyword (checked on the lower-cased text)? -/
def containsProhibited (v : String) : Bool :=
  prohibited_keywords.any (fun k => pySubstr k (pyLower v))

/-- Validation of the four `AgentEdge` fields: declared `Field` bounds, the
`pattern` on `action`, and the `validate_name` regex validator, with errors
collected in field declaration order. -/
def AgentEdge.fieldErrors (name description action target_agent : String) : List String :=
  (if pyLen name < 1 then ["name: String should have at least 1 character"]
   else if 100 < pyLen name then ["name: String should have at most 100 characters"]
   else if !toolNameOk name then ["Tool name must be a valid identifier"]
   else []) ++
  (if pyLen description < 1 then ["description: String should have at least 1 character"]
   else if 500 < pyLen description then ["description: String should have at most 500 characters"]
   else []) ++
  (if action = "handoff" || action = "action" then []
   else ["action: String should match pattern"]) ++
  (if pyLen target_agent < 1 then ["target_agent: String should have at least 1 character"]
   else if 100 < pyLen target_agent then ["target_agent: String should have at most 100 characters"]
   else [])

/-- Pydantic construction of an `AgentEdge` from its raw fields. -/
def AgentEdge.construct (name description action target_agent : String) :
    Except (List String) AgentEdge :=
  match AgentEdge.fieldErrors name description action target_agent with
  | [] => Except.ok ⟨name, description, action, target_agent⟩
  | errs => Except.error errs

/-- Individual agent configuration (`AgentConfig`).  The entries of `tools`
are opaque dictionaries; the factory never reads them, so they are modelled
as opaque strings. -/
structure AgentConfig where
  name : String
  instructions : String
  on_enter_prompt : String
  tools : List String
  edges : List AgentEdge
deriving Repr, DecidableEq

/-- Validation of the scalar `AgentConfig` fields: declared bounds, the
`validate_agent_name` regex and the `validate_instructions` keyword scan
(nested `AgentEdge` values arrive already constructed and are not
re-validated, as pydantic does not re-validate model instances). -/
def AgentConfig.fieldErrors (name instructions on_enter_prompt : String) : List String :=
  (if pyLen name < 1 then ["name: String should have at least 1 character"]
   else if 100 < pyLen name then ["name: String should have at most 100 characters"]
   else if !agentNameOk name then ["Agent name must be a valid identifier starting with a letter"]
   else []) ++
  (if pyLen instructions < 10 then ["instructions: String should have at least 10 characters"]
   else if 10000 < pyLen instructions then ["instructions: String should have at most 10000 characters"]
   else if containsProhibited instructions then ["Instructions contain prohibited keywords"]
   else []) ++
  (if pyLen on_enter_prompt < 1 then ["on_enter_prompt: String should have at least 1 character"]
   else if 1000 < pyLen on_enter_prompt then ["on_enter_prompt: String should have at most 1000 characters"]
   else [])

/-- Pydantic construction of an `AgentConfig`; `validate_instructions`
returns `v.strip()`, so the stored instructions are the stripped text. -/
def AgentConfig.construct (name instructions on_enter_prompt : String)
    (tools : List String) (edges : List AgentEdge) : Except (List String) AgentConfig :=
  match AgentConfig.fieldErrors name instructions on_enter_prompt with
  | [] => Except.ok ⟨name, pyStrip instructions, on_enter_prompt, tools, edges⟩
  | errs => Except.error errs

/-- Complete customer schema containing multiple agents (`CustomerSchema`). -/
structure CustomerSchema where
  customer_id : String
  name : String
  description : String
  agents : List AgentConfig
deriving Repr, DecidableEq

/-- The names of the agents of a list, in order. -/
def agentNames (agents : List AgentConfig) : List String :=
  agents.map (fun a => a.name)

/-- First edge whose target names no agent of the list, in the iteration
order of `validate_edge_targets`. -/
def findDanglingEdge (agents : List AgentConfig) : Option AgentEdge :=
  agents.findSome? (fun a => a.edges.find? (fun e => !((agentNames agents).contains e.target_agent)))

/-- The error message of `validate_edge_targets` for a missing target. -/
def danglingMsg (target : String) : String :=
  "Edge target \"" ++ target ++ "\" not found in agent list"

/-- Validation chain of the `agents` field: declared count bounds, then
`validate_agent_uniqueness`, then `validate_edge_targets`; the first failure
stops the chain. -/
def agentsFieldErrors (v : List AgentConfig) : List String :=
  if v.length < 1 then ["agents: List should have at least 1 item"]
  else if 20 < v.length then ["agents: List should have at most 20 items"]
  else if (agentNames v).dedup.length ≠ (agentNames v).length then
    ["Agent names must be unique within a customer"]
  else match findDanglingEdge v with
    | some e => [danglingMsg e.target_agent]
    | none => []

/-- Validation of the `CustomerSchema` fields: declared bounds and
`validate_customer_id` for `customer_id`, bounds for `name` and
`description`, and the `agents` chain, collected in declaration order. -/
def CustomerSchema.fieldErrors (customer_id name description : String)
    (agents : List AgentConfig) : List String :=
  (if pyLen customer_id < 1 then ["customer_id: String should have at least 1 character"]
   else if 50 < pyLen customer_id then ["customer_id: String should have at most 50 characters"]
   else if !customerIdOk customer_id then
     ["Customer ID can only contain letters, numbers, underscores, and hyphens"]
   else []) ++
  (if pyLen name < 1 then ["name: String should have at least 1 character"]
   else if 200 < pyLen name then ["name: String should have at most 200 characters"]
   else []) ++
  (if pyLen description < 1 then ["description: String should have at least 1 character"]
   else if 1000 < pyLen description then ["description: String should have at most 1000 characters"]
   else []) ++
  agentsFieldErrors agents

/-- Pydantic construction of a `CustomerSchema` from already-constructed
agents; `validate_customer_id` returns `v.lower()`, so the stored id is the
lower-cased input. -/
def CustomerSchema.construct (customer_id name description : String)
    (agents : List AgentConfig) : Except (List String) CustomerSchema :=
  match CustomerSchema.fieldErrors customer_id name description agents with
  | [] => Except.ok ⟨pyLower customer_id, name, description, agents⟩
  | errs => Except.error errs

/-! ## Capability binder (`src/agents/agent_factory.py`) -/

/-- A tool as appended to an agent's tool list by the factory: either the
`function_tool` wrapper around the handoff handler (carrying the raw schema's
name and description and the captured target), or the bare string which the
non-handoff branch of `create_handoff_tool` returns. -/
inductive BuiltTool where
  | functionTool (schema_name schema_description target : String)
  | plainString (s : String)
deriving Repr, DecidableEq

/-- The dynamically created agent class of `make_agent_class`: its class
name, instructions, `on_enter` prompt and tool list. -/
structure AgentClass where
  class_name : String
  instructions : String
  on_enter_prompt : String
  tools : List BuiltTool
deriving Repr, DecidableEq

/-- The shared name-to-class table (`agent_map`): a Python dict, modelled as
an insertion-ordered association list with last-write-wins update. -/
abbrev AgentMap : Type := List (String × Option AgentClass)

/-- Python `dict` lookup: `some v` when the key is present with value `v`,
`none` when absent (a `KeyError` site). -/
def dict_lookup (m : AgentMap) (k : String) : Option (Option AgentClass) :=
  (m.find? (fun p => p.1 == k)).map (fun p => p.2)

/-- Python `dict` assignment: overwrite in place when the key is present,
append otherwise. -/
def dict_set (m : AgentMap) (k : String) (v : Option AgentClass) : AgentMap :=
  if (m.find? (fun p => p.1 == k)).isSome then
    m.map (fun p => if p.1 == k then (k, v) else p)
  else m ++ [(k, v)]

/-- Result of invoking a handoff handler: the error string of the defensive
branch, or a freshly constructed instance of the looked-up class. -/
inductive HandlerResult where
  | handoffError (msg : String)
  | newAgent (cls : AgentClass)
deriving Repr, DecidableEq

/-- The `handler` closure of `create_handoff_tool`, applied to the shared
table as it stands at call time: if the target is absent from the table or
still maps to the pass-1 placeholder `None`, return the error string;
otherwise instantiate the class found in the table. -/
def run_handler (_agent_map : AgentMap) (_target : String) : HandlerResult :=
  match dict_lookup _agent_map _target with
  | none => HandlerResult.handoffError ("Error: Target agent " ++ _target ++ " not found")
  | some none => HandlerResult.handoffError ("Error: Target agent " ++ _target ++ " not found")
  | some (some cls) => HandlerResult.newAgent cls

/-- The `create_handoff_tool` closure: on the handoff branch (action equals
`"handoff"` and the target is truthy, i.e. non-empty) it returns the
`function_tool` with the raw schema built from the edge fields; otherwise it
returns the bare refusal string.  Both branches return a non-`None` value. -/
def create_handoff_tool (_action _target _name _desc : String) : Option BuiltTool :=
  if _action = "handoff" && _target ≠ "" then
    some (BuiltTool.functionTool _name (_desc ++ ". Will handoff to: " ++ _target) _target)
  else
    some (BuiltTool.plainString "I can\x27t do that right now.")

/-- The edge loop of pass 2: run `create_handoff_tool` on each edge and
append its result whenever it is not `None`. -/
def buildTools (edges : List AgentEdge) : List BuiltTool :=
  edges.filterMap (fun e => create_handoff_tool e.action e.target_agent e.name e.description)

/-- The `make_agent_class` closure: package name, instructions, entry prompt
and the built tool list into the dynamically created class. -/
def make_agent_class (a : AgentConfig) : AgentClass :=
  { class_name := a.name
    instructions := a.instructions
    on_enter_prompt := a.on_enter_prompt
    tools := buildTools a.edges }

/-- Pass 1 of `agent_factory`: create an empty slot (`None`) for every agent
name, starting from the empty dict. -/
def factory_pass1 (agent_list : List AgentConfig) : AgentMap :=
  agent_list.foldl (fun m a => dict_set m a.name none) []

/-- Pass 2 of `agent_factory`: define each class and store it under the
agent's name. -/
def factory_pass2 (m : AgentMap) (agent_list : List AgentConfig) : AgentMap :=
  agent_list.foldl (fun m a => dict_set m a.name (some (make_agent_class a))) m

/-- `agent_factory`: the two passes in sequence over the same agent list. -/
def agent_factory (agent_list : List AgentConfig) : AgentMap :=
  factory_pass2 (factory_pass1 agent_list) agent_list

/-! ## Serialization round trip (`CustomerSchema.dict` and re-validation) -/

/-- Raw edge record of the ingestion format. -/
structure RawEdge where
  name : String
  description : String
  action : String
  target_agent : String
deriving Repr, DecidableEq

/-- Raw agent record of the ingestion format. -/
structure RawAgent where
  name : String
  instructions : String
  on_enter_prompt : String
  tools : List String
  edges : List RawEdge
deriving Repr, DecidableEq

/-- Raw customer record of the ingestion format. -/
structure RawCustomer where
  customer_id : String
  name : String
  description : String
  agents : List RawAgent
deriving Repr, DecidableEq

/-- `AgentEdge` part of `model.dict()`: dump the stored fields. -/
def serializeEdge (e : AgentEdge) : RawEdge :=
  ⟨e.name, e.description, e.action, e.target_agent⟩

/-- `AgentConfig` part of `model.dict()`: dump the stored fields. -/
def serializeAgent (a : AgentConfig) : RawAgent :=
  ⟨a.name, a.instructions, a.on_enter_prompt, a.tools, a.edges.map serializeEdge⟩

/-- `CustomerSchema.dict()`: dump the stored fields. -/
def serialize (g : CustomerSchema) : RawCustomer :=
  ⟨g.customer_id, g.name, g.description, g.agents.map serializeAgent⟩

/-- Collect a list of per-item validation outcomes the way pydantic does for
a list field: all item errors are reported together; the values are kept only
when every item validated. -/
def collectItems {α : Type} : List (Except (List String) α) → Except (List String) (List α)
  | [] => Except.ok []
  | x :: xs =>
    match x, collectItems xs with
    | Except.ok v, Except.ok vs => Except.ok (v :: vs)
    | Except.ok _, Except.error es => Except.error es
    | Except.error es, Except.ok _ => Except.error es
    | Except.error es, Except.error es2 => Except.error (es ++ es2)

/-- Parse a raw edge record: pydantic validation of `AgentEdge`. -/
def parseEdge (r : RawEdge) : Except (List String) AgentEdge :=
  AgentEdge.construct r.name r.description r.action r.target_agent

/-- Parse a raw agent record: validate every edge, then the agent fields. -/
def parseAgent (r : RawAgent) : Except (List String) AgentConfig :=
  match collectItems (r.edges.map parseEdge) with
  | Except.error es => Except.error es
  | Except.ok edges =>
    AgentConfig.construct r.name r.instructions r.on_enter_prompt r.tools edges

/-- Parse a raw customer record: validate every agent, then the schema
fields — the full `CustomerSchema(**record)` validation pipeline. -/
def parse (r : RawCustomer) : Except (List String) CustomerSchema :=
  match collectItems (r.agents.map parseAgent) with
  | Except.error es => Except.error es
  | Except.ok agents =>
    CustomerSchema.construct r.customer_id r.name r.description agents

/-! ## Persistence lookup (`src/database/connection.py`) -/

/-- A stored customer document as `get_customer` reads it from the
collection: its id, display name and agent list. -/
structure StoredCustomer where
  customer_id : String
  name : String
  agents : List AgentConfig
deriving Repr, DecidableEq

/-- `collection.find_one` on the `customer_id` field: first stored document
with the requested id. -/
def find_one (db : List StoredCustomer) (cid : String) : Option StoredCustomer :=
  db.find? (fun c => c.customer_id == cid)

/-- `DatabaseManager.get_customer`: return the requested customer's agents;
on a miss fall back to the `customer_1` document's agents, or to the empty
list when that default is also absent. -/
def get_customer (db : List StoredCustomer) (customer_id : String) : List AgentConfig :=
  match find_one db customer_id with
  | some customer => customer.agents
  | none =>
    match find_one db "customer_1" with
    | some default_customer => default_customer.agents
    | none => []

/-! ## Session entrypoint (`src/agents/multi_agent.py`) -/

/-- Outcome of the agent-selection steps of `entrypoint`: the session starts
with an instance of a class, or the coroutine aborts with an uncaught Python
exception.  A `rejected` outcome would correspond to an explicit guard in the
source refusing to start; the embedding shows no such guard exists. -/
inductive StartOutcome where
  | started (cls : AgentClass)
  | rejected (msg : String)
  | uncaught (exc : String)
deriving Repr, DecidableEq

/-- The schema-to-initial-agent steps of `entrypoint`: index the first agent
of the schema (`agent_schema[0]`, an uncaught `IndexError` when the list is
empty), build the classes with `agent_factory`, then look the first agent's
name up (`agent_classes[first_agent]`, a `KeyError` when absent) and
instantiate it (a `TypeError` were the slot still `None`). -/
def entrypoint_start (agent_schema : List AgentConfig) : StartOutcome :=
  match agent_schema with
  | [] => StartOutcome.uncaught "IndexError: list index out of range"
  | a :: _ =>
    match dict_lookup (agent_factory agent_schema) a.name with
    | some (some cls) => StartOutcome.started cls
    | some none => StartOutcome.uncaught "TypeError: NoneType object is not callable"
    | none => StartOutcome.uncaught ("KeyError: " ++ a.name)

/-! ## Concrete sample data used by witnesses and counterexamples -/

/-- A handoff edge from the alpha agent to the beta agent. -/
def edgeAB : AgentEdge := ⟨"consent_to_helper", "user agreed", "handoff", "BetaAgent"⟩

/-- A two-node demo agent: alpha hands off to beta. -/
def agentA : AgentConfig := ⟨"AlphaAgent", "collect consent politely", "hello from alpha", [], [edgeAB]⟩

/-- The beta agent, no outgoing edges. -/
def agentB : AgentConfig := ⟨"BetaAgent", "help the caller kindly", "hello from beta", [], []⟩

/-- The validated two-node demo graph. -/
def gAB : CustomerSchema := ⟨"acme-1", "Acme", "a demo customer", [agentA, agentB]⟩

/-- An edge whose target names no agent. -/
def edgeMissing : AgentEdge := ⟨"go_away", "handoff to a missing agent", "handoff", "MissingAgent"⟩

/-- An agent carrying only the dangling edge. -/
def gammaAgent : AgentConfig := ⟨"GammaAgent", "route the caller onward", "hello from gamma", [], [edgeMissing]⟩

/-- First of two agents sharing one name; it also carries the dangling edge. -/
def dupNameAgent1 : AgentConfig := ⟨"AlphaAgent", "first duplicate agent", "hi one", [], [edgeMissing]⟩

/-- Second of two agents sharing one name. -/
def dupNameAgent2 : AgentConfig := ⟨"AlphaAgent", "second duplicate agent", "hi two", [], []⟩

/-- A self-loop edge named `go_alpha`. -/
def edgeLoop1 : AgentEdge := ⟨"go_alpha", "loop back first", "handoff", "AlphaAgent"⟩

/-- A second self-loop edge with the same name `go_alpha`. -/
def edgeLoop2 : AgentEdge := ⟨"go_alpha", "loop back second", "handoff", "AlphaAgent"⟩

/-- An agent declaring two edges with the same name. -/
def dupEdgesAgent : AgentConfig := ⟨"AlphaAgent", "agent with twin edges", "hi twins", [], [edgeLoop1, edgeLoop2]⟩

/-- The graph the validator accepts although a node has duplicate edge names. -/
def gDupEdges : CustomerSchema := ⟨"acme-2", "Acme Two", "duplicate edge names", [dupEdgesAgent]⟩

/-- An edge of action kind `action` (non-handoff). -/
def edgeAct : AgentEdge := ⟨"do_thing", "a non-handoff action", "action", "BetaAgent"⟩

/-- An agent with one non-handoff edge. -/
def actAgent : AgentConfig := ⟨"ActionAgent", "try to do the thing", "hello action", [], [edgeAct]⟩

/-- The agent stored after constructing from instructions that meet the
10-character minimum only before stripping: nine spaces plus `abcdefgh`
pass the bound, and `validate_instructions` then stores the stripped
8-character text. -/
def paddedAgent : AgentConfig := ⟨"PaddedAgent", "abcdefgh", "hello padded", [], []⟩

/-- The successfully constructed graph holding the padded-instructions
agent. -/
def gPadded : CustomerSchema := ⟨"acme-5", "Acme Five", "padded instructions", [paddedAgent]⟩

/-- The stored default customer document. -/
def storedCustomer1 : StoredCustomer := ⟨"customer_1", "TechCorp Solutions", [agentA, agentB]⟩

/-- A one-document database holding only the default customer. -/
def db1 : List StoredCustomer := [storedCustomer1]

/-! ## Character-level facts about `Char.toLower` -/

theorem char_toNat_ofNat (n : Nat) (h : n.isValidChar) : (Char.ofNat n).toNat = n := by
  simp [Char.ofNat, h, Char.ofNatAux, Char.toNat, UInt32.toNat]

theorem isLower_iff (c : Char) : c.isLower = true ↔ (97 ≤ c.toNat ∧ c.toNat ≤ 122) := by
  simp [Char.isLower, Char.toNat, UInt32.le_def, BitVec.le_def, UInt32.toNat, decide_eq_true_iff]

theorem toLower_eq_self (c : Char) (h : ¬ (65 ≤ c.toNat ∧ c.toNat ≤ 90)) : c.toLower = c := by
  simp [Char.toLower, h]

theorem toLower_upper_toNat (c : Char) (h : 65 ≤ c.toNat ∧ c.toNat ≤ 90) :
    (Char.toLower c).toNat = c.toNat + 32 := by
  have hv : (c.toNat + 32).isValidChar := by left; omega
  simp [Char.toLower, h]
  exact char_toNat_ofNat _ hv

theorem toLower_toLower (c : Char) : c.toLower.toLower = c.toLower := by
  by_cases h : 65 ≤ c.toNat ∧ c.toNat ≤ 90
  · apply toLower_eq_self
    have := toLower_upper_toNat c h
    omega
  · rw [toLower_eq_self c h, toLower_eq_self c h]

theorem customerIdChar_toLower (c : Char) (h : customerIdChar c = true) :
    customerIdChar c.toLower = true := by
  by_cases hu : 65 ≤ c.toNat ∧ c.toNat ≤ 90
  · have hl : (Char.toLower c).isLower = true := by
      rw [isLower_iff]
      have := toLower_upper_toNat c hu
      omega
    simp [customerIdChar, Char.isAlpha, hl]
  · rw [toLower_eq_self c hu]
    exact h

/-! ## Facts about the dict model -/

theorem find?_map_set (k : String) (v : Option AgentClass) (m : AgentMap)
    (h : (m.find? (fun p => p.1 == k)).isSome) :
    (m.map (fun p => if p.1 == k then (k, v) else p)).find? (fun p => p.1 == k) = some (k, v) := by
  induction m with
  | nil => simp at h
  | cons p t ih =>
    by_cases hp : p.1 = k
    · rw [List.map_cons, if_pos (by simp [hp])]
      apply List.find?_cons_of_pos
      simp
    · rw [List.map_cons, if_neg (by simp [hp])]
      rw [List.find?_cons_of_neg _ (by simp [hp])]
      rw [List.find?_cons_of_neg _ (by simp [hp])] at h
      exact ih h

theorem find?_map_set_ne (k k' : String) (v : Option AgentClass) (m : AgentMap)
    (hne : k' ≠ k) :
    (m.map (fun p => if p.1 == k then (k, v) else p)).find? (fun p => p.1 == k')
      = m.find? (fun p => p.1 == k') := by
  induction m with
  | nil => rfl
  | cons p t ih =>
    by_cases hp : p.1 = k
    · rw [List.map_cons, if_pos (by simp [hp])]
      rw [List.find?_cons_of_neg _ (by simp; exact fun hh => hne hh.symm)]
      rw [List.find?_cons_of_neg _ (by simp [hp]; exact fun hh => hne hh.symm)]
      exact ih
    · rw [List.map_cons, if_neg (by simp [hp])]
      by_cases hp' : p.1 = k'
      · rw [List.find?_cons_of_pos _ (by simp [hp']), List.find?_cons_of_pos _ (by simp [hp'])]
      · rw [List.find?_cons_of_neg _ (by simp [hp']), List.find?_cons_of_neg _ (by simp [hp'])]
        exact ih

theorem dict_lookup_set_self (m : AgentMap) (k : String) (v : Option AgentClass) :
    dict_lookup (dict_set m k v) k = some v := by
  unfold dict_set
  by_cases h : (m.find? (fun p => p.1 == k)).isSome
  · rw [if_pos h]
    simp only [dict_lookup, find?_map_set k v m h]
    rfl
  · rw [if_neg h]
    simp only [dict_lookup, List.find?_append]
    rw [Option.not_isSome_iff_eq_none] at h
    simp [h]

theorem dict_lookup_set_ne (m : AgentMap) (k k' : String) (v : Option AgentClass)
    (hne : k' ≠ k) :
    dict_lookup (dict_set m k v) k' = dict_lookup m k' := by
  unfold dict_set
  by_cases h : (m.find? (fun p => p.1 == k)).isSome
  · rw [if_pos h]
    simp only [dict_lookup, find?_map_set_ne k k' v m hne]
  · have hk : ¬ (k = k') := fun hh => hne hh.symm
    rw [if_neg h]
    simp only [dict_lookup, List.find?_append]
    have h1 : [(k, v)].find? (fun p => p.1 == k') = none := by simp [hk]
    rw [h1]
    cases m.find? (fun p => p.1 == k') <;> rfl

/-! ## Facts about the two factory passes -/

theorem factory_pass2_lookup_not_mem (n : String) (l : List AgentConfig) :
    ∀ m : AgentMap, n ∉ agentNames l →
      dict_lookup (factory_pass2 m l) n = dict_lookup m n := by
  induction l with
  | nil => intro m _; rfl
  | cons a t ih =>
    intro m h
    have hmem : a.name ∈ agentNames (a :: t) := by simp [agentNames]
    have hna : n ≠ a.name := fun hh => h (hh ▸ hmem)
    have hnt : n ∉ agentNames t := by
      intro hh
      apply h
      simp [agentNames] at hh ⊢
      exact Or.inr hh
    show dict_lookup (factory_pass2 (dict_set m a.name (some (make_agent_class a))) t) n
        = dict_lookup m n
    rw [ih _ hnt, dict_lookup_set_ne _ _ _ _ hna]

theorem factory_pass2_lookup_mem (l : List AgentConfig) :
    ∀ (m : AgentMap) (a : AgentConfig), a ∈ l → (agentNames l).Nodup →
      dict_lookup (factory_pass2 m l) a.name = some (some (make_agent_class a)) := by
  induction l with
  | nil => intro m a h _; cases h
  | cons b t ih =>
    intro m a h hnd
    simp only [agentNames, List.map_cons, List.nodup_cons] at hnd
    rcases List.mem_cons.mp h with rfl | hat
    · have hnot : a.name ∉ agentNames t := hnd.1
      show dict_lookup (factory_pass2 (dict_set m a.name (some (make_agent_class a))) t) a.name
          = some (some (make_agent_class a))
      rw [factory_pass2_lookup_not_mem _ t _ hnot]
      exact dict_lookup_set_self _ _ _
    · exact ih _ a hat hnd.2

/-! ## Inversion facts for successful construction -/

theorem construct_ok_inv (cid nm ds : String) (agents : List AgentConfig) (g : CustomerSchema)
    (h : CustomerSchema.construct cid nm ds agents = Except.ok g) :
    g = ⟨pyLower cid, nm, ds, agents⟩ ∧ CustomerSchema.fieldErrors cid nm ds agents = [] := by
  unfold CustomerSchema.construct at h
  cases hfe : CustomerSchema.fieldErrors cid nm ds agents with
  | nil =>
    rw [hfe] at h
    simp at h
    exact ⟨h.symm, rfl⟩
  | cons e es => rw [hfe] at h; cases h

theorem fieldErrors_nil_agents (cid nm ds : String) (agents : List AgentConfig)
    (h : CustomerSchema.fieldErrors cid nm ds agents = []) : agentsFieldErrors agents = [] := by
  unfold CustomerSchema.fieldErrors at h
  rcases List.append_eq_nil.mp h with ⟨h1, h2⟩
  exact h2

theorem agentsFieldErrors_nil_inv (v : List AgentConfig) (h : agentsFieldErrors v = []) :
    (agentNames v).Nodup ∧ ∀ a ∈ v, ∀ e ∈ a.edges, e.target_agent ∈ agentNames v := by
  unfold agentsFieldErrors at h
  split_ifs at h with h1 h2 h3
  have hlen : (agentNames v).dedup.length = (agentNames v).length := by omega
  have hded : (agentNames v).dedup = agentNames v :=
    List.Sublist.eq_of_length (List.dedup_sublist _) hlen
  have hnd : (agentNames v).Nodup := List.dedup_eq_self.mp hded
  refine ⟨hnd, ?_⟩
  cases heq : findDanglingEdge v with
  | some e => rw [heq] at h; cases h
  | none =>
    unfold findDanglingEdge at heq
    rw [List.findSome?_eq_none_iff] at heq
    intro a ha e he
    have hfind := heq a ha
    rw [List.find?_eq_none] at hfind
    have h2 := hfind e he
    simp at h2
    exact h2

theorem construct_error_of_ne_nil (cid nm ds : String) (agents : List AgentConfig)
    (h : CustomerSchema.fieldErrors cid nm ds agents ≠ []) :
    CustomerSchema.construct cid nm ds agents
      = Except.error (CustomerSchema.fieldErrors cid nm ds agents) := by
  unfold CustomerSchema.construct
  cases hfe : CustomerSchema.fieldErrors cid nm ds agents with
  | nil => exact absurd hfe h
  | cons x xs => rfl

theorem fieldErrors_nil_customer_id (cid nm ds : String) (agents : List AgentConfig)
    (h : CustomerSchema.fieldErrors cid nm ds agents = []) :
    ¬ (pyLen cid < 1) ∧ ¬ (50 < pyLen cid) ∧ customerIdOk cid = true := by
  unfold CustomerSchema.fieldErrors at h
  rcases List.append_eq_nil.mp h with ⟨h12, _⟩
  rcases List.append_eq_nil.mp h12 with ⟨h123, _⟩
  rcases List.append_eq_nil.mp h123 with ⟨hb1, _⟩
  split_ifs at hb1 with h1 h2 h3
  exact ⟨h1, h2, by simpa using h3⟩

theorem buildTools_eq_map (edges : List AgentEdge) :
    buildTools edges = edges.map (fun e =>
      if e.action = "handoff" && e.target_agent ≠ "" then
        BuiltTool.functionTool e.name (e.description ++ ". Will handoff to: " ++ e.target_agent)
          e.target_agent
      else BuiltTool.plainString "I can\x27t do that right now.") := by
  induction edges with
  | nil => rfl
  | cons e t ih =>
    by_cases h : e.action = "handoff" && e.target_agent ≠ ""
    · simp only [buildTools, List.filterMap_cons, create_handoff_tool, if_pos h,
        List.map_cons] at ih ⊢
      rw [ih]
    · simp only [buildTools, List.filterMap_cons, create_handoff_tool, if_neg h,
        List.map_cons] at ih ⊢
      rw [ih]

theorem collectItems_ok {α : Type} (f : α → Except (List String) α) (l : List α)
    (h : ∀ x ∈ l, f x = Except.ok x) : collectItems (l.map f) = Except.ok l := by
  induction l with
  | nil => rfl
  | cons x t ih =>
    have hx := h x (List.mem_cons_self x t)
    have ht := ih (fun y hy => h y (List.mem_cons_of_mem x hy))
    rw [List.map_cons, hx]
    show (match (Except.ok x : Except (List String) α), collectItems (t.map f) with
      | Except.ok v, Except.ok vs => Except.ok (v :: vs)
      | Except.ok _, Except.error es => Except.error es
      | Except.error es, Except.ok _ => Except.error es
      | Except.error es, Except.error es2 => Except.error (es ++ es2))
        = Except.ok (x :: t)
    rw [ht]

theorem pyLen_pyLower (s : String) : pyLen (pyLower s) = pyLen s := by
  simp [pyLen, pyLower, String.toList]

theorem pyLower_pyLower (s : String) : pyLower (pyLower s) = pyLower s := by
  unfold pyLower
  have hd : (String.mk (s.toList.map Char.toLower)).toList = s.toList.map Char.toLower := rfl
  rw [hd, List.map_map]
  congr 1
  apply List.map_congr_left
  intro c _
  exact toLower_toLower c

theorem customerIdOk_pyLower (s : String) (h : customerIdOk s = true) :
    customerIdOk (pyLower s) = true := by
  have hd : (pyLower s).toList = s.toList.map Char.toLower := rfl
  unfold customerIdOk at h ⊢
  rw [hd]
  rw [Bool.and_eq_true] at h ⊢
  obtain ⟨h1, h2⟩ := h
  constructor
  · simp only [Bool.not_eq_true', List.isEmpty_eq_false] at h1 ⊢
    intro hh
    rw [List.map_eq_nil_iff] at hh
    exact h1 hh
  · rw [List.all_map]
    rw [List.all_eq_true] at h2 ⊢
    intro c hc
    exact customerIdChar_toLower c (h2 c hc)

/-! ## C1 -/

/-- C1: for every validated customer graph, after the factory's two passes
every declared agent name maps in the shared table to the constructed class
(no `None` placeholder remains), and every handoff tool's handler, run
against the shared table, resolves its captured target to a new instance of
the target's class — the `Error: Target agent ... not found` branch is never
taken. -/
theorem agent_factory_resolves_handoffs (cid nm ds : String)
    (agents : List AgentConfig) (g : CustomerSchema)
    (h : CustomerSchema.construct cid nm ds agents = Except.ok g) :
    (∀ a ∈ g.agents,
       dict_lookup (agent_factory g.agents) a.name = some (some (make_agent_class a))) ∧
    (∀ a ∈ g.agents, ∀ sn sd tgt,
       BuiltTool.functionTool sn sd tgt ∈ (make_agent_class a).tools →
       ∃ b ∈ g.agents, b.name = tgt ∧
         run_handler (agent_factory g.agents) tgt
           = HandlerResult.newAgent (make_agent_class b)) := by
  obtain ⟨hg, hfe⟩ := construct_ok_inv cid nm ds agents g h
  obtain ⟨hnd, htgt⟩ :=
    agentsFieldErrors_nil_inv agents (fieldErrors_nil_agents cid nm ds agents hfe)
  have hga : g.agents = agents := by rw [hg]
  rw [hga]
  have part1 : ∀ a ∈ agents,
      dict_lookup (agent_factory agents) a.name = some (some (make_agent_class a)) := by
    intro a ha
    exact factory_pass2_lookup_mem agents _ a ha hnd
  refine ⟨part1, ?_⟩
  intro a ha sn sd tgt htool
  have htool' : BuiltTool.functionTool sn sd tgt ∈ buildTools a.edges := htool
  rw [buildTools, List.mem_filterMap] at htool'
  obtain ⟨e, he, hce⟩ := htool'
  have htgt_eq : e.target_agent = tgt := by
    unfold create_handoff_tool at hce
    split_ifs at hce with hcond
    · simp at hce
      exact hce.2.2
    · simp at hce
  have hmem : tgt ∈ agentNames agents := htgt_eq ▸ htgt a ha e he
  rw [agentNames, List.mem_map] at hmem
  obtain ⟨b, hb, hbn⟩ := hmem
  refine ⟨b, hb, hbn, ?_⟩
  unfold run_handler
  rw [← hbn, part1 b hb]

/-- C1 witness: the two-node demo graph instantiates the theorem. -/
theorem agent_factory_resolves_handoffs_witness :
    (∀ a ∈ gAB.agents,
       dict_lookup (agent_factory gAB.agents) a.name = some (some (make_agent_class a))) ∧
    (∀ a ∈ gAB.agents, ∀ sn sd tgt,
       BuiltTool.functionTool sn sd tgt ∈ (make_agent_class a).tools →
       ∃ b ∈ gAB.agents, b.name = tgt ∧
         run_handler (agent_factory gAB.agents) tgt
           = HandlerResult.newAgent (make_agent_class b)) :=
  agent_factory_resolves_handoffs "Acme-1" "Acme" "a demo customer" [agentA, agentB] gAB rfl

/-! ## C2 -/

/-- C2 counterexample: a spec with a dangling edge target and a duplicated
agent name fails, but the error names only the duplicate — no message names
the missing target `MissingAgent` — so the claim that the validation error
always names the missing target is false as stated. -/
theorem construct_dangling_edge_message_counterexample :
    (∃ a ∈ [dupNameAgent1, dupNameAgent2], ∃ e ∈ a.edges,
        e.target_agent ∉ agentNames [dupNameAgent1, dupNameAgent2]) ∧
    CustomerSchema.construct "acme-3" "Acme Three" "dangling edge and twin names"
        [dupNameAgent1, dupNameAgent2]
      = Except.error ["Agent names must be unique within a customer"] ∧
    pySubstr "MissingAgent" "Agent names must be unique within a customer" = false :=
  ⟨by decide, rfl, by decide⟩

/-- C2 (amended): a graph spec with a dangling edge target never constructs
— some validation error is always reported — and whenever the earlier checks
of the `agents` chain pass (count bound, unique names) the reported error
message names the missing target. -/
theorem construct_dangling_edge_fails (cid nm ds : String) (agents : List AgentConfig)
    (hd : ∃ a ∈ agents, ∃ e ∈ a.edges, e.target_agent ∉ agentNames agents) :
    (∃ errs, CustomerSchema.construct cid nm ds agents = Except.error errs) ∧
    ((agentNames agents).Nodup → agents.length ≤ 20 →
      ∃ errs tgt, CustomerSchema.construct cid nm ds agents = Except.error errs ∧
        tgt ∉ agentNames agents ∧ danglingMsg tgt ∈ errs) := by
  have hfind : ∃ e, findDanglingEdge agents = some e := by
    cases heq : findDanglingEdge agents with
    | none =>
      exfalso
      unfold findDanglingEdge at heq
      rw [List.findSome?_eq_none_iff] at heq
      obtain ⟨a, ha, e, he, hnot⟩ := hd
      have hfa := heq a ha
      rw [List.find?_eq_none] at hfa
      have h2 := hfa e he
      simp at h2
      exact hnot h2
    | some e => exact ⟨e, rfl⟩
  obtain ⟨a0, ha0, _⟩ := hd
  have hpos : 0 < agents.length := List.length_pos_of_mem ha0
  have hblock : agentsFieldErrors agents ≠ [] := by
    unfold agentsFieldErrors
    split_ifs with h1 h2 h3
    · simp
    · simp
    · simp
    · obtain ⟨e, he⟩ := hfind
      rw [he]
      simp
  have hne : CustomerSchema.fieldErrors cid nm ds agents ≠ [] := by
    intro hnil
    exact hblock (fieldErrors_nil_agents cid nm ds agents hnil)
  have hcon := construct_error_of_ne_nil cid nm ds agents hne
  refine ⟨⟨_, hcon⟩, ?_⟩
  intro hnd hle
  have h1 : ¬ (agents.length < 1) := by omega
  have h2 : ¬ (20 < agents.length) := by omega
  have h3 : ¬ ((agentNames agents).dedup.length ≠ (agentNames agents).length) := by
    rw [List.dedup_eq_self.mpr hnd]
    simp
  obtain ⟨e, he⟩ := hfind
  have hab : agentsFieldErrors agents = [danglingMsg e.target_agent] := by
    unfold agentsFieldErrors
    rw [if_neg h1, if_neg h2, if_neg h3, he]
  have htgt : e.target_agent ∉ agentNames agents := by
    unfold findDanglingEdge at he
    rw [List.findSome?_eq_some_iff] at he
    obtain ⟨l1, a, l2, hsplit, hfa, hnone⟩ := he
    have hpe := List.find?_some hfa
    simp at hpe
    exact hpe
  refine ⟨_, e.target_agent, hcon, htgt, ?_⟩
  unfold CustomerSchema.fieldErrors
  rw [hab]
  simp

/-- C2 witness: a one-node graph whose only edge targets a missing agent
fails with the message naming the target. -/
theorem construct_dangling_edge_fails_witness :
    ∃ errs tgt, CustomerSchema.construct "acme-4" "Acme Four" "dangling edge only" [gammaAgent]
        = Except.error errs ∧ tgt ∉ agentNames [gammaAgent] ∧ danglingMsg tgt ∈ errs :=
  (construct_dangling_edge_fails "acme-4" "Acme Four" "dangling edge only" [gammaAgent]
      (by decide)).2 (by decide) (by decide)

/-! ## C3 -/

/-- C3 counterexample: a node declaring two edges with the same name
constructs successfully — edge-name uniqueness within a node is not
enforced, so not every successfully constructed graph has pairwise-distinct
edge names within each node. -/
theorem duplicate_edge_names_accepted_counterexample :
    CustomerSchema.construct "acme-2" "Acme Two" "duplicate edge names" [dupEdgesAgent]
      = Except.ok gDupEdges ∧
    ∃ a ∈ gDupEdges.agents, ¬ (a.edges.map (fun e => e.name)).Nodup :=
  ⟨rfl, by decide⟩

/-- C3 (amended): construction performs no edge-name-uniqueness check — even
when some node declares two edges with the same name, construction succeeds
whenever the checks the validator actually performs (field bounds, agent-name
uniqueness, edge-target resolution) all pass, and the duplicate edges are
kept. -/
theorem construct_no_edge_name_uniqueness_check (cid nm ds : String)
    (agents : List AgentConfig)
    (_hdup : ∃ a ∈ agents, ¬ (a.edges.map (fun e => e.name)).Nodup)
    (hok : CustomerSchema.fieldErrors cid nm ds agents = []) :
    CustomerSchema.construct cid nm ds agents
      = Except.ok ⟨pyLower cid, nm, ds, agents⟩ := by
  unfold CustomerSchema.construct
  rw [hok]

/-- C3 witness: the twin-edge graph instantiates the amended theorem. -/
theorem construct_no_edge_name_uniqueness_check_witness :
    CustomerSchema.construct "acme-2" "Acme Two" "duplicate edge names" [dupEdgesAgent]
      = Except.ok ⟨pyLower "acme-2", "Acme Two", "duplicate edge names", [dupEdgesAgent]⟩ :=
  construct_no_edge_name_uniqueness_check "acme-2" "Acme Two" "duplicate edge names"
    [dupEdgesAgent] (by decide) rfl

/-! ## C4 -/

/-- C4: a graph spec in which two agents share one name always fails
construction with a validation error, and every successfully constructed
graph has pairwise-distinct agent names. -/
theorem construct_duplicate_agent_names (cid nm ds : String) (agents : List AgentConfig)
    (g : CustomerSchema) :
    (¬ (agentNames agents).Nodup →
      ∃ errs, CustomerSchema.construct cid nm ds agents = Except.error errs) ∧
    (CustomerSchema.construct cid nm ds agents = Except.ok g → (agentNames g.agents).Nodup) := by
  constructor
  · intro hnd
    have hblock : agentsFieldErrors agents ≠ [] := by
      unfold agentsFieldErrors
      split_ifs with h1 h2 h3
      · simp
      · simp
      · simp
      · exfalso
        apply hnd
        have hlen : (agentNames agents).dedup.length = (agentNames agents).length := by omega
        exact List.dedup_eq_self.mp (List.Sublist.eq_of_length (List.dedup_sublist _) hlen)
    have hne : CustomerSchema.fieldErrors cid nm ds agents ≠ [] := by
      intro hnil
      exact hblock (fieldErrors_nil_agents cid nm ds agents hnil)
    exact ⟨_, construct_error_of_ne_nil cid nm ds agents hne⟩
  · intro hok
    obtain ⟨hg, hfe⟩ := construct_ok_inv cid nm ds agents g hok
    have hnd := (agentsFieldErrors_nil_inv agents (fieldErrors_nil_agents cid nm ds agents hfe)).1
    rw [hg]
    exact hnd

/-- C4 witness: twin-named agents are rejected; the demo graph's names are
distinct. -/
theorem construct_duplicate_agent_names_witness :
    (∃ errs, CustomerSchema.construct "acme-3" "Acme Three" "two agents, one name"
        [dupNameAgent1, dupNameAgent2] = Except.error errs) ∧
    (agentNames gAB.agents).Nodup :=
  ⟨(construct_duplicate_agent_names "acme-3" "Acme Three" "two agents, one name"
      [dupNameAgent1, dupNameAgent2] gAB).1 (by decide),
   (construct_duplicate_agent_names "Acme-1" "Acme" "a demo customer"
      [agentA, agentB] gAB).2 rfl⟩

/-! ## C5 -/

/-- C5 counterexample: with only the default `customer_1` stored, requesting
an absent id returns the default customer's agents instead of a not-found
result — the operation substitutes a different customer's graph. -/
theorem get_customer_substitutes_default_counterexample :
    find_one db1 "missing_customer" = none ∧
    get_customer db1 "missing_customer" = storedCustomer1.agents ∧
    storedCustomer1.customer_id ≠ "missing_customer" :=
  ⟨rfl, rfl, by decide⟩

/-- C5 (amended): `get_customer` returns the requested customer's own agents
when the id is present, and on a miss it never reports not-found: it falls
back to the default `customer_1` document's agents when that exists, else to
the empty list. -/
theorem get_customer_fallback (db : List StoredCustomer) (cid : String) :
    (∀ c, find_one db cid = some c → c.customer_id = cid ∧ get_customer db cid = c.agents) ∧
    (find_one db cid = none →
      ∀ d, find_one db "customer_1" = some d → get_customer db cid = d.agents) ∧
    (find_one db cid = none → find_one db "customer_1" = none → get_customer db cid = []) := by
  refine ⟨?_, ?_, ?_⟩
  · intro c hc
    have hc' : db.find? (fun c => c.customer_id == cid) = some c := hc
    have hpc := List.find?_some hc'
    simp at hpc
    refine ⟨hpc, ?_⟩
    unfold get_customer
    rw [hc]
  · intro hn d hd
    unfold get_customer
    rw [hn, hd]
  · intro hn hd
    unfold get_customer
    rw [hn, hd]

/-- C5 witness: the fallback branch of the theorem at the one-document
database. -/
theorem get_customer_fallback_witness :
    get_customer db1 "missing_customer" = storedCustomer1.agents :=
  (get_customer_fallback db1 "missing_customer").2.1 rfl storedCustomer1 rfl

/-! ## C6 -/

/-- C6: the factory's edge loop appends one entry per edge, and for an edge
of action kind `action` the appended entry is the constant non-callable
string, never a callable function tool and never skipped. -/
theorem factory_appends_refusal_for_action_edges (a : AgentConfig) :
    (make_agent_class a).tools.length = a.edges.length ∧
    (∀ e ∈ a.edges, e.action = "action" →
      create_handoff_tool e.action e.target_agent e.name e.description
        = some (BuiltTool.plainString "I can\x27t do that right now.")) ∧
    (∀ e ∈ a.edges, e.action = "action" →
      BuiltTool.plainString "I can\x27t do that right now." ∈ (make_agent_class a).tools) := by
  have hbt : (make_agent_class a).tools = buildTools a.edges := rfl
  refine ⟨?_, ?_, ?_⟩
  · rw [hbt, buildTools_eq_map, List.length_map]
  · intro e he hact
    unfold create_handoff_tool
    simp [hact]
  · intro e he hact
    rw [hbt, buildTools_eq_map, List.mem_map]
    exact ⟨e, he, by simp [hact]⟩

/-- C6 witness: the agent with one non-handoff edge instantiates the
theorem. -/
theorem factory_appends_refusal_for_action_edges_witness :
    (make_agent_class actAgent).tools.length = actAgent.edges.length ∧
    BuiltTool.plainString "I can\x27t do that right now." ∈ (make_agent_class actAgent).tools :=
  ⟨(factory_appends_refusal_for_action_edges actAgent).1,
   (factory_appends_refusal_for_action_edges actAgent).2.2 edgeAct (by decide) rfl⟩

/-! ## C7 -/

/-- C7 counterexample: on an empty agent list the entrypoint does not reject
through any defensive check — it aborts with the uncaught `IndexError`
raised by reading `agent_schema[0]`. -/
theorem entrypoint_empty_schema_uncaught_indexerror :
    entrypoint_start [] = StartOutcome.uncaught "IndexError: list index out of range" := rfl

/-- C7 (amended): a session on a zero-node graph never starts — but the
failure is the uncaught `IndexError` from indexing the first agent, not an
independently enforced defensive check. -/
theorem entrypoint_zero_nodes (agent_schema : List AgentConfig) (h : agent_schema = []) :
    entrypoint_start agent_schema = StartOutcome.uncaught "IndexError: list index out of range" ∧
    ∀ cls, entrypoint_start agent_schema ≠ StartOutcome.started cls := by
  subst h
  exact ⟨rfl, fun cls hc => by cases hc⟩

/-- C7 witness: no class is ever started from the empty schema. -/
theorem entrypoint_zero_nodes_witness :
    entrypoint_start [] ≠ StartOutcome.started (make_agent_class agentA) :=
  (entrypoint_zero_nodes [] rfl).2 (make_agent_class agentA)

/-! ## C8 -/

/-- C8: for every validated non-empty graph, the session starts with an
instance of the class built from the first agent in the graph's ordered
list. -/
theorem entrypoint_starts_with_first_agent (cid nm ds : String) (agents : List AgentConfig)
    (g : CustomerSchema) (h : CustomerSchema.construct cid nm ds agents = Except.ok g)
    (a : AgentConfig) (rest : List AgentConfig) (hg : g.agents = a :: rest) :
    entrypoint_start g.agents = StartOutcome.started (make_agent_class a) := by
  obtain ⟨hgeq, hfe⟩ := construct_ok_inv cid nm ds agents g h
  have hnd := (agentsFieldErrors_nil_inv agents (fieldErrors_nil_agents cid nm ds agents hfe)).1
  have hnd' : (agentNames g.agents).Nodup := by
    rw [hgeq]
    exact hnd
  rw [hg] at hnd' ⊢
  have hl : dict_lookup (agent_factory (a :: rest)) a.name = some (some (make_agent_class a)) :=
    factory_pass2_lookup_mem (a :: rest) (factory_pass1 (a :: rest)) a
      (List.mem_cons_self a rest) hnd'
  show (match dict_lookup (agent_factory (a :: rest)) a.name with
    | some (some cls) => StartOutcome.started cls
    | some none => StartOutcome.uncaught "TypeError: NoneType object is not callable"
    | none => StartOutcome.uncaught ("KeyError: " ++ a.name))
      = StartOutcome.started (make_agent_class a)
  rw [hl]

/-- C8 witness: the demo graph starts with an alpha-agent instance. -/
theorem entrypoint_starts_with_first_agent_witness :
    entrypoint_start gAB.agents = StartOutcome.started (make_agent_class agentA) :=
  entrypoint_starts_with_first_agent "Acme-1" "Acme" "a demo customer" [agentA, agentB] gAB rfl
    agentA [agentB] rfl

/-! ## C9 -/

/-- C9 counterexample: parse after serialize is not the identity on every
successfully constructed graph.  Instructions of nine spaces followed by
`abcdefgh` (17 characters) pass the `min_length=10` bound, which pydantic
checks on the raw input, and `validate_instructions` then stores the
stripped 8-character text unchecked; the resulting graph constructs
successfully, but serializing it and re-validating fails the minimum-length
bound, so the round trip returns an error instead of the graph. -/
theorem parse_serialize_not_identity_counterexample :
    AgentConfig.construct "PaddedAgent" "         abcdefgh" "hello padded" [] []
      = Except.ok paddedAgent ∧
    CustomerSchema.construct "acme-5" "Acme Five" "padded instructions" [paddedAgent]
      = Except.ok gPadded ∧
    parse (serialize gPadded)
      = Except.error ["instructions: String should have at least 10 characters"] :=
  ⟨rfl, rfl, rfl⟩

/-- C9 (amended): serializing a successfully constructed graph and
re-validating the result through the full parsing pipeline returns the
graph unchanged — identical node/edge set and node ordering — provided
every stored agent and edge re-validates to itself (in particular, each
agent's stripped instructions still meet the 10-character minimum).
Without that proviso the round trip can fail: instructions meeting the
bound only before stripping serialize to a record the parser rejects. -/
theorem parse_serialize_roundtrip (cid nm ds : String) (agents : List AgentConfig)
    (g : CustomerSchema)
    (hg : CustomerSchema.construct cid nm ds agents = Except.ok g)
    (hagents : ∀ a ∈ agents,
      AgentConfig.construct a.name a.instructions a.on_enter_prompt a.tools a.edges
        = Except.ok a)
    (hedges : ∀ a ∈ agents, ∀ e ∈ a.edges,
      AgentEdge.construct e.name e.description e.action e.target_agent = Except.ok e) :
    parse (serialize g) = Except.ok g := by
  obtain ⟨hgeq, hfe⟩ := construct_ok_inv cid nm ds agents g hg
  obtain ⟨hc1, hc2, hc3⟩ := fieldErrors_nil_customer_id cid nm ds agents hfe
  have hpa : ∀ a ∈ agents, parseAgent (serializeAgent a) = Except.ok a := by
    intro a ha
    have hcoll : collectItems ((serializeAgent a).edges.map parseEdge) = Except.ok a.edges := by
      show collectItems ((a.edges.map serializeEdge).map parseEdge) = Except.ok a.edges
      rw [List.map_map]
      exact collectItems_ok _ _ (fun e he => hedges a ha e he)
    unfold parseAgent
    rw [hcoll]
    exact hagents a ha
  have hcolla : collectItems ((serialize g).agents.map parseAgent) = Except.ok agents := by
    have hs : (serialize g).agents = g.agents.map serializeAgent := rfl
    rw [hs, hgeq]
    show collectItems ((agents.map serializeAgent).map parseAgent) = Except.ok agents
    rw [List.map_map]
    exact collectItems_ok _ _ hpa
  have hfe2 : CustomerSchema.fieldErrors (pyLower cid) nm ds agents = [] := by
    unfold CustomerSchema.fieldErrors at hfe ⊢
    rcases List.append_eq_nil.mp hfe with ⟨h12, hab⟩
    rcases List.append_eq_nil.mp h12 with ⟨h123, hb3⟩
    rcases List.append_eq_nil.mp h123 with ⟨hb1, hb2⟩
    rw [if_neg (by rw [pyLen_pyLower]; exact hc1), if_neg (by rw [pyLen_pyLower]; exact hc2),
        if_neg (by rw [customerIdOk_pyLower cid hc3]; simp), hb2, hb3, hab]
    rfl
  have hcid : (serialize g).customer_id = pyLower cid := by rw [hgeq]; rfl
  have hnm : (serialize g).name = nm := by rw [hgeq]; rfl
  have hds : (serialize g).description = ds := by rw [hgeq]; rfl
  unfold parse
  rw [hcolla, hcid, hnm, hds]
  show (match CustomerSchema.fieldErrors (pyLower cid) nm ds agents with
      | [] => Except.ok (CustomerSchema.mk (pyLower (pyLower cid)) nm ds agents)
      | errs => Except.error errs) = Except.ok g
  rw [hfe2, hgeq, pyLower_pyLower]

/-- C9 witness: the demo graph round-trips. -/
theorem parse_serialize_roundtrip_witness : parse (serialize gAB) = Except.ok gAB :=
  parse_serialize_roundtrip "Acme-1" "Acme" "a demo customer" [agentA, agentB] gAB rfl
    (by
      intro a ha
      rcases List.mem_cons.mp ha with rfl | ha2
      · rfl
      · rcases List.mem_cons.mp ha2 with rfl | h3
        · rfl
        · cases h3)
    (by
      intro a ha e he
      rcases List.mem_cons.mp ha with rfl | ha2
      · rcases List.mem_cons.mp he with rfl | he2
        · rfl
        · cases he2
      · rcases List.mem_cons.mp ha2 with rfl | h3
        · cases he
        · cases h3)

/-! ## C10 -/

/-- C10: construction stores the lower-cased customer id — the constructed
id equals `lower(input)`, lower-casing it again changes nothing, and an
exact-match lookup with any differently-spelled id (in particular a
differently-cased one) does not find the stored document. -/
theorem construct_lowercases_customer_id (cid nm ds : String) (agents : List AgentConfig)
    (g : CustomerSchema) (h : CustomerSchema.construct cid nm ds agents = Except.ok g) :
    g.customer_id = pyLower cid ∧
    pyLower g.customer_id = g.customer_id ∧
    ∀ q : String, q ≠ g.customer_id →
      find_one [⟨g.customer_id, g.name, g.agents⟩] q = none := by
  obtain ⟨hgeq, _⟩ := construct_ok_inv cid nm ds agents g h
  have h1 : g.customer_id = pyLower cid := by rw [hgeq]
  refine ⟨h1, by rw [h1, pyLower_pyLower], ?_⟩
  intro q hq
  unfold find_one
  rw [List.find?_eq_none]
  intro x hx
  simp at hx
  subst hx
  simp
  exact fun hh => hq hh.symm

/-- C10 witness: the id `Acme-1` is stored as `acme-1` and a lookup with the
original casing misses. -/
theorem construct_lowercases_customer_id_witness :
    gAB.customer_id = pyLower "Acme-1" ∧
    pyLower gAB.customer_id = gAB.customer_id ∧
    find_one [⟨gAB.customer_id, gAB.name, gAB.agents⟩] "Acme-1" = none :=
  ⟨(construct_lowercases_customer_id "Acme-1" "Acme" "a demo customer" [agentA, agentB] gAB
      rfl).1,
   (construct_lowercases_customer_id "Acme-1" "Acme" "a demo customer" [agentA, agentB] gAB
      rfl).2.1,
   (construct_lowercases_customer_id "Acme-1" "Acme" "a demo customer" [agentA, agentB] gAB
      rfl).2.2 "Acme-1" (by decide)⟩

end MultiPromptAgent
